import Mathlib

/-!
Shallow embedding of the Anti-Screensaver Mouse Mover core:
the Movement Engine (src/src/core/mouse_mover.py) and the
In-Memory State Manager (src/src/core/state.py), together with the
data models they use (src/src/core/models.py).

Modelling conventions:
* timestamps (`datetime.now()`, movement timestamps) are natural numbers,
  supplied as explicit `now` arguments where the source reads the clock;
* the uuid4 instance id is a string parameter of the initial state;
* Python exceptions become an `err : Option String` field (engine layer)
  or an `Except String` result (state-manager layer); the message text
  follows the source;
* subscriber callbacks are values carrying an identity (Python compares
  callbacks by identity in `in` / `list.remove`) and a flag saying whether
  invoking them raises; invocation results are `Except`, and the
  notification loop catches per-callback errors exactly as the source does;
* the Qt `QTimer` becomes `timer : Option Int` holding the armed period in
  milliseconds (`none` = no timer / disarmed); Qt signal emissions and
  subscriber invocations become an explicit event list;
* the mouse controller's per-tick behaviour (`move` returning a
  `MouseMovement`) is an input `TickInput` giving the success flag,
  timestamp and error message of the produced movement record.
-/

namespace AntiScreenSaver

/-- `MouseMovement` dataclass from models.py: one movement attempt. -/
structure MouseMovement where
  delta_x : Int
  delta_y : Int
  timestamp : Nat
  success : Bool
  error_message : Option String
deriving Repr, DecidableEq

/-- `ApplicationState` dataclass from models.py. -/
structure ApplicationState where
  is_running : Bool
  last_movement_timestamp : Option Nat
  movement_count : Nat
  error_count : Nat
  start_timestamp : Option Nat
  instance_id : String
deriving Repr, DecidableEq

/-- `ApplicationState.reset_counts` from models.py. -/
def ApplicationState.reset_counts (s : ApplicationState) : ApplicationState :=
  { s with movement_count := 0, error_count := 0 }

/-- A subscriber callback: identified by `id` (Python compares callbacks by
identity), `throws` records whether invoking it raises an exception. -/
structure Callback where
  id : Nat
  throws : Bool
deriving Repr, DecidableEq

/-- Observable notifications: the engine's Qt signals
(`movement_executed`, `movement_failed`, `auto_stopped`) and one
state-change subscriber invocation (`state_changed cid flag`). -/
inductive Event where
  | movement_executed (dx dy : Int)
  | movement_failed (msg : String)
  | auto_stopped
  | state_changed (cid : Nat) (flag : Bool)
deriving Repr, DecidableEq

/-- The full mutable state of an `InMemoryStateManager` (state.py):
the `ApplicationState`, the subscriber list and the private
consecutive-error counter. -/
structure SMState where
  state : ApplicationState
  subscribers : List Callback
  consecutive_errors : Nat
deriving Repr, DecidableEq

namespace InMemoryStateManager

/-- `MAX_CONSECUTIVE_ERRORS = 5` (state.py line 26). -/
def MAX_CONSECUTIVE_ERRORS : Nat := 5

/-- `__init__`: stopped state, zero counters, no subscribers.
`iid` stands for the generated uuid4 string. -/
def init (iid : String) : SMState :=
  { state :=
      { is_running := false
        last_movement_timestamp := none
        movement_count := 0
        error_count := 0
        start_timestamp := none
        instance_id := iid }
    subscribers := []
    consecutive_errors := 0 }

/-- Invoking one subscriber callback: raises iff the callback throws. -/
def invokeCallback (c : Callback) (_flag : Bool) : Except String Unit :=
  if c.throws then Except.error "Error in state change subscriber" else Except.ok ()

/-- `_notify_state_change`: call every subscriber in order with the new
running flag; a raising callback is caught (logged) and the loop
continues, so the function always returns normally. The returned list
records each invocation. -/
def notify_state_change (subs : List Callback) (flag : Bool) : List Event :=
  subs.foldl
    (fun acc c =>
      match invokeCallback c flag with
      | Except.ok _ => acc ++ [Event.state_changed c.id flag]
      | Except.error _ => acc ++ [Event.state_changed c.id flag])
    []

/-- `start`: StateError if already running; else set running, stamp
`start_timestamp`, reset counters and the consecutive-error counter,
then notify subscribers with `true`. -/
def start (now : Nat) (sm : SMState) : Except String (SMState × List Event) :=
  if sm.state.is_running then
    Except.error "Cannot start: already running"
  else
    let st := { sm.state with is_running := true, start_timestamp := some now }
    let sm' : SMState := { sm with state := st.reset_counts, consecutive_errors := 0 }
    Except.ok (sm', notify_state_change sm'.subscribers true)

/-- `stop`: StateError if already stopped; else set stopped (counters
preserved) and notify subscribers with `false`. -/
def stop (sm : SMState) : Except String (SMState × List Event) :=
  if sm.state.is_running = false then
    Except.error "Cannot stop: already stopped"
  else
    let sm' : SMState := { sm with state := { sm.state with is_running := false } }
    Except.ok (sm', notify_state_change sm'.subscribers false)

/-- `is_running`. -/
def is_running (sm : SMState) : Bool :=
  sm.state.is_running

/-- `get_state`: a field-by-field copy of the current `ApplicationState`. -/
def get_state (sm : SMState) : ApplicationState :=
  { is_running := sm.state.is_running
    last_movement_timestamp := sm.state.last_movement_timestamp
    movement_count := sm.state.movement_count
    error_count := sm.state.error_count
    start_timestamp := sm.state.start_timestamp
    instance_id := sm.state.instance_id }

/-- `record_movement_success`: increment `movement_count`, stamp
`last_movement_timestamp`, reset the consecutive-error counter. -/
def record_movement_success (m : MouseMovement) (sm : SMState) : SMState :=
  { sm with
    state := { sm.state with
               movement_count := sm.state.movement_count + 1
               last_movement_timestamp := some m.timestamp }
    consecutive_errors := 0 }

/-- `record_movement_failure`: increment `error_count` and the
consecutive-error counter; return `true` iff the counter reached
`MAX_CONSECUTIVE_ERRORS`. -/
def record_movement_failure (_m : MouseMovement) (sm : SMState) : SMState × Bool :=
  let sm' : SMState :=
    { sm with
      state := { sm.state with error_count := sm.state.error_count + 1 }
      consecutive_errors := sm.consecutive_errors + 1 }
  if sm'.consecutive_errors ≥ MAX_CONSECUTIVE_ERRORS then (sm', true) else (sm', false)

/-- `subscribe_state_change`: append the callback unless already present. -/
def subscribe_state_change (c : Callback) (sm : SMState) : SMState :=
  if c ∈ sm.subscribers then sm
  else { sm with subscribers := sm.subscribers ++ [c] }

/-- `unsubscribe_state_change`: remove the callback if present
(`list.remove` drops the first occurrence), else do nothing. -/
def unsubscribe_state_change (c : Callback) (sm : SMState) : SMState :=
  if c ∈ sm.subscribers then { sm with subscribers := sm.subscribers.erase c }
  else sm

/-- `get_consecutive_errors`. -/
def get_consecutive_errors (sm : SMState) : Nat :=
  sm.consecutive_errors

end InMemoryStateManager

/-- The mutable state of a `MovementEngine` (mouse_mover.py):
`timer = some p` means a timer armed with period `p` milliseconds
(`self._timer` exists and is active); `none` means no timer. -/
structure EngineState where
  timer : Option Int
  current_interval : Int
  pattern_state : Nat
deriving Repr, DecidableEq

/-- `MovementEngine.__init__`: no timer, default interval 30 s, phase 0. -/
def EngineState.init : EngineState :=
  { timer := none, current_interval := 30, pattern_state := 0 }

/-- The engine together with its state manager. -/
structure System where
  engine : EngineState
  sm : SMState
deriving Repr, DecidableEq

/-- Result of an engine method call: post-state, emitted events, and
`err = some msg` when the call raised `EngineError msg`. -/
structure StepResult where
  sys : System
  events : List Event
  err : Option String
deriving Repr, DecidableEq

/-- Per-tick behaviour of the mouse controller: the success flag,
timestamp and error message of the `MouseMovement` its `move` returns. -/
structure TickInput where
  success : Bool
  timestamp : Nat
  error_message : Option String
deriving Repr, DecidableEq

namespace MovementEngine

/-- `is_running`: a timer handle exists and is active. -/
def is_running (e : EngineState) : Bool :=
  e.timer.isSome

/-- `get_next_movement_pattern`: pure read of the phase — `(1, 1)` in
phase 0, `(-1, -1)` otherwise. It does not modify any state. -/
def get_next_movement_pattern (e : EngineState) : Int × Int :=
  if e.pattern_state = 0 then (1, 1) else (-1, -1)

/-- `start(interval_seconds)`: EngineError if already running or the
interval is outside [10, 300]; else arm the timer at
`interval_seconds * 1000` ms, store the interval, reset the phase, and
call the state manager's `start`; if that raises, disarm the timer and
raise the wrapped EngineError. -/
def start (interval_seconds : Int) (now : Nat) (sys : System) : StepResult :=
  if is_running sys.engine then
    { sys := sys, events := [], err := some "Movement engine is already running" }
  else if interval_seconds < 10 ∨ interval_seconds > 300 then
    { sys := sys, events := [],
      err := some "Interval must be between 10 and 300 seconds" }
  else
    let e : EngineState :=
      { timer := some (interval_seconds * 1000)
        current_interval := interval_seconds
        pattern_state := 0 }
    match InMemoryStateManager.start now sys.sm with
    | Except.ok (sm', evs) =>
        { sys := { engine := e, sm := sm' }, events := evs, err := none }
    | Except.error msg =>
        { sys := { engine := { e with timer := none }, sm := sys.sm }
          events := []
          err := some ("Failed to update state: " ++ msg) }

/-- `stop`: EngineError if not running; else disarm the timer, then call
the state manager's `stop`; a state-manager failure is re-raised wrapped
(the timer stays disarmed). -/
def stop (sys : System) : StepResult :=
  if is_running sys.engine = false then
    { sys := sys, events := [], err := some "Movement engine is not running" }
  else
    let e : EngineState := { sys.engine with timer := none }
    match InMemoryStateManager.stop sys.sm with
    | Except.ok (sm', evs) =>
        { sys := { engine := e, sm := sm' }, events := evs, err := none }
    | Except.error msg =>
        { sys := { engine := e, sm := sys.sm }, events := []
          err := some ("Failed to update state: " ++ msg) }

/-- `_execute_movement` (the timer tick handler): get the pattern deltas,
have the controller move, then on success record it, emit
`movement_executed` and flip the phase; on failure record it, emit
`movement_failed`, and if the auto-stop flag came back, `stop()` and
emit `auto_stopped`, swallowing any error raised by that internal stop. -/
def execute_movement (inp : TickInput) (sys : System) : System × List Event :=
  let p := get_next_movement_pattern sys.engine
  let movement : MouseMovement :=
    { delta_x := p.1, delta_y := p.2, timestamp := inp.timestamp
      success := inp.success, error_message := inp.error_message }
  if movement.success then
    let sm' := InMemoryStateManager.record_movement_success movement sys.sm
    let e : EngineState := { sys.engine with pattern_state := 1 - sys.engine.pattern_state }
    ({ engine := e, sm := sm' }, [Event.movement_executed p.1 p.2])
  else
    let r := InMemoryStateManager.record_movement_failure movement sys.sm
    let errMsg := movement.error_message.getD "Unknown error"
    let sys1 : System := { sys with sm := r.1 }
    if r.2 then
      let s := stop sys1
      match s.err with
      | none => (s.sys, Event.movement_failed errMsg :: (s.events ++ [Event.auto_stopped]))
      | some _ => (s.sys, Event.movement_failed errMsg :: s.events)
    else
      (sys1, [Event.movement_failed errMsg])

/-- `update_interval`: EngineError if outside [10, 300]; else store the
interval and, if the timer is active, reprogram its period. -/
def update_interval (interval_seconds : Int) (sys : System) : StepResult :=
  if interval_seconds < 10 ∨ interval_seconds > 300 then
    { sys := sys, events := [],
      err := some "Interval must be between 10 and 300 seconds" }
  else
    let e0 : EngineState := { sys.engine with current_interval := interval_seconds }
    let e : EngineState :=
      if is_running e0 then { e0 with timer := some (interval_seconds * 1000) } else e0
    { sys := { sys with engine := e }, events := [], err := none }

/-- `get_current_interval`. -/
def get_current_interval (e : EngineState) : Int :=
  e.current_interval

/-- A sequence of timer ticks: run `execute_movement` once per input,
collecting all events in order. -/
def runTicks : List TickInput → System → System × List Event
  | [], sys => (sys, [])
  | inp :: rest, sys =>
      let r1 := execute_movement inp sys
      let r2 := runTicks rest r1.1
      (r2.1, r1.2 ++ r2.2)

end MovementEngine

/-- The deltas carried by the `movement_executed` events of a trace. -/
def movementDeltas (evs : List Event) : List (Int × Int) :=
  evs.filterMap fun e =>
    match e with
    | Event.movement_executed dx dy => some (dx, dy)
    | _ => none

/-- Componentwise sum of a list of deltas. -/
def sumDeltas (l : List (Int × Int)) : Int × Int :=
  l.sum

/-- Engine-layer consistency: the timer is armed exactly when the state
manager's logical state is RUNNING. -/
def inSync (sys : System) : Prop :=
  MovementEngine.is_running sys.engine = sys.sm.state.is_running

/-- A convenient concrete initial system: fresh engine, fresh manager. -/
def initSystem : System :=
  { engine := EngineState.init, sm := InMemoryStateManager.init "" }

/-- A successful tick outcome at time `t`. -/
def tickSuccess (t : Nat) : TickInput :=
  { success := true, timestamp := t, error_message := none }

/-- A failed tick outcome at time `t`. -/
def tickFail (t : Nat) : TickInput :=
  { success := false, timestamp := t, error_message := some "simulated failure" }

/-- A concrete manager with one raising subscriber and one normal one. -/
def smW : SMState :=
  { InMemoryStateManager.init "demo" with
    subscribers := [{ id := 1, throws := true }, { id := 2, throws := false }] }

/-- A concrete running system: fresh system after a successful `start 30`. -/
def runningSystem : System :=
  (MovementEngine.start 30 0 initSystem).sys

/-! ### Helper lemmas -/

theorem notify_go (flag : Bool) (l : List Callback) :
    ∀ acc : List Event,
      l.foldl
        (fun acc c =>
          match InMemoryStateManager.invokeCallback c flag with
          | Except.ok _ => acc ++ [Event.state_changed c.id flag]
          | Except.error _ => acc ++ [Event.state_changed c.id flag])
        acc
      = acc ++ l.map (fun c => Event.state_changed c.id flag) := by
  induction l with
  | nil => intro acc; simp
  | cons c l ih =>
      intro acc
      have hstep :
          (match InMemoryStateManager.invokeCallback c flag with
           | Except.ok _ => acc ++ [Event.state_changed c.id flag]
           | Except.error _ => acc ++ [Event.state_changed c.id flag])
            = acc ++ [Event.state_changed c.id flag] := by
        cases InMemoryStateManager.invokeCallback c flag <;> rfl
      simp only [List.foldl_cons, hstep, ih, List.map_cons]
      simp

/-- `_notify_state_change` invokes every subscriber exactly once, in order,
with the new flag — even the ones that raise — and always returns. -/
theorem notify_state_change_eq_map (subs : List Callback) (flag : Bool) :
    InMemoryStateManager.notify_state_change subs flag
      = subs.map (fun c => Event.state_changed c.id flag) := by
  simpa using notify_go flag subs []

theorem notify_no_auto_stop (subs : List Callback) (flag : Bool) :
    (InMemoryStateManager.notify_state_change subs flag).count Event.auto_stopped = 0 := by
  rw [notify_state_change_eq_map]
  rw [List.count_eq_zero]
  simp

theorem runTicks_append (a b : List TickInput) (sys : System) :
    MovementEngine.runTicks (a ++ b) sys
      = ((MovementEngine.runTicks b (MovementEngine.runTicks a sys).1).1,
         (MovementEngine.runTicks a sys).2
           ++ (MovementEngine.runTicks b (MovementEngine.runTicks a sys).1).2) := by
  induction a generalizing sys with
  | nil => simp [MovementEngine.runTicks]
  | cons i a ih =>
      simp [MovementEngine.runTicks, ih]

/-- A successful tick: the timer is untouched, the manager's running flag
is untouched, the consecutive-error counter resets, the trace is exactly
one `movement_executed` event. -/
theorem execute_movement_success (inp : TickInput) (sys : System)
    (h : inp.success = true) :
    (MovementEngine.execute_movement inp sys).1.engine.timer = sys.engine.timer ∧
    (MovementEngine.execute_movement inp sys).1.sm.state.is_running
      = sys.sm.state.is_running ∧
    (MovementEngine.execute_movement inp sys).1.sm.consecutive_errors = 0 ∧
    (MovementEngine.execute_movement inp sys).2
      = [Event.movement_executed (MovementEngine.get_next_movement_pattern sys.engine).1
           (MovementEngine.get_next_movement_pattern sys.engine).2] := by
  simp [MovementEngine.execute_movement, h,
        InMemoryStateManager.record_movement_success]

/-- Failing ticks below the threshold: the engine state is untouched,
the manager stays in its running state, the consecutive-error counter
adds the number of ticks, and no `auto_stopped` event is emitted. -/
theorem runTicks_fail_no_stop (inputs : List TickInput) :
    ∀ sys : System, (∀ i ∈ inputs, i.success = false) →
      sys.sm.consecutive_errors + inputs.length < 5 →
      (MovementEngine.runTicks inputs sys).1.engine = sys.engine ∧
      (MovementEngine.runTicks inputs sys).1.sm.state.is_running
        = sys.sm.state.is_running ∧
      (MovementEngine.runTicks inputs sys).1.sm.consecutive_errors
        = sys.sm.consecutive_errors + inputs.length ∧
      (MovementEngine.runTicks inputs sys).2.count Event.auto_stopped = 0 := by
  induction inputs with
  | nil => intro sys _ _; simp [MovementEngine.runTicks]
  | cons i rest ih =>
      intro sys hf hlt
      have hi : i.success = false := hf i (by simp)
      have hnt : ¬ (sys.sm.consecutive_errors + 1 ≥ InMemoryStateManager.MAX_CONSECUTIVE_ERRORS) := by
        simp only [InMemoryStateManager.MAX_CONSECUTIVE_ERRORS]
        simp only [List.length_cons] at hlt
        omega
      have hstep :
          MovementEngine.execute_movement i sys
            = ({ sys with
                 sm := { sys.sm with
                         state := { sys.sm.state with
                                    error_count := sys.sm.state.error_count + 1 }
                         consecutive_errors := sys.sm.consecutive_errors + 1 } },
               [Event.movement_failed (i.error_message.getD "Unknown error")]) := by
        simp [MovementEngine.execute_movement, hi,
              InMemoryStateManager.record_movement_failure, hnt]
      have hrest := ih ({ sys with
                 sm := { sys.sm with
                         state := { sys.sm.state with
                                    error_count := sys.sm.state.error_count + 1 }
                         consecutive_errors := sys.sm.consecutive_errors + 1 } })
        (fun j hj => hf j (by simp [hj]))
        (by
          show sys.sm.consecutive_errors + 1 + rest.length < 5
          simp only [List.length_cons] at hlt
          omega)
      simp only [MovementEngine.runTicks, hstep]
      refine ⟨hrest.1, hrest.2.1, ?_, ?_⟩
      · simp only [List.length_cons]
        rw [hrest.2.2.1]
        show sys.sm.consecutive_errors + 1 + rest.length
          = sys.sm.consecutive_errors + (rest.length + 1)
        omega
      · simp [List.count_append, hrest.2.2.2, List.count_cons]

theorem runTicks_cons (i : TickInput) (rest : List TickInput) (sys : System) :
    MovementEngine.runTicks (i :: rest) sys
      = ((MovementEngine.runTicks rest (MovementEngine.execute_movement i sys).1).1,
         (MovementEngine.execute_movement i sys).2
           ++ (MovementEngine.runTicks rest (MovementEngine.execute_movement i sys).1).2) := rfl

theorem movementDeltas_cons_exec (a b : Int) (evs : List Event) :
    movementDeltas (Event.movement_executed a b :: evs) = (a, b) :: movementDeltas evs := by
  simp [movementDeltas]

theorem sumDeltas_cons (d : Int × Int) (l : List (Int × Int)) :
    sumDeltas (d :: l) = d + sumDeltas l := by
  simp [sumDeltas]

/-- The explicit result of a successful tick. -/
theorem execute_movement_success_eq (inp : TickInput) (sys : System)
    (h : inp.success = true) :
    MovementEngine.execute_movement inp sys
      = ({ engine := { sys.engine with pattern_state := 1 - sys.engine.pattern_state }
           sm := { sys.sm with
                   state := { sys.sm.state with
                              movement_count := sys.sm.state.movement_count + 1
                              last_movement_timestamp := some inp.timestamp }
                   consecutive_errors := 0 } },
         [Event.movement_executed (MovementEngine.get_next_movement_pattern sys.engine).1
            (MovementEngine.get_next_movement_pattern sys.engine).2]) := by
  simp [MovementEngine.execute_movement, h, InMemoryStateManager.record_movement_success]

/-- The explicit result of a failed tick below the threshold. -/
theorem execute_movement_fail_no_trigger (inp : TickInput) (sys : System)
    (hi : inp.success = false)
    (hc : sys.sm.consecutive_errors + 1 < 5) :
    MovementEngine.execute_movement inp sys
      = ({ sys with
           sm := { sys.sm with
                   state := { sys.sm.state with
                              error_count := sys.sm.state.error_count + 1 }
                   consecutive_errors := sys.sm.consecutive_errors + 1 } },
         [Event.movement_failed (inp.error_message.getD "Unknown error")]) := by
  have hnt : ¬ (sys.sm.consecutive_errors + 1 ≥ InMemoryStateManager.MAX_CONSECUTIVE_ERRORS) := by
    simp only [InMemoryStateManager.MAX_CONSECUTIVE_ERRORS]
    omega
  simp [MovementEngine.execute_movement, hi,
        InMemoryStateManager.record_movement_failure, hnt]

/-- A failed tick at the threshold on a consistently running system: the
engine disarms its timer, the manager transitions to stopped, and exactly
one `auto_stopped` event is emitted. -/
theorem execute_movement_trigger (inp : TickInput) (sys : System)
    (hi : inp.success = false)
    (he : MovementEngine.is_running sys.engine = true)
    (hr : sys.sm.state.is_running = true)
    (hc : sys.sm.consecutive_errors + 1 ≥ InMemoryStateManager.MAX_CONSECUTIVE_ERRORS) :
    MovementEngine.is_running (MovementEngine.execute_movement inp sys).1.engine = false ∧
    (MovementEngine.execute_movement inp sys).1.sm.state.is_running = false ∧
    (MovementEngine.execute_movement inp sys).2.count Event.auto_stopped = 1 := by
  have he' : sys.engine.timer.isSome = true := he
  simp [MovementEngine.execute_movement, hi,
        InMemoryStateManager.record_movement_failure, hc,
        MovementEngine.stop, MovementEngine.is_running, he',
        InMemoryStateManager.stop, hr,
        List.count_append, List.count_cons, notify_no_auto_stop]

/-- Failing ticks reaching the threshold exactly at the end: the system
auto-stops with exactly one `auto_stopped` event in the trace. -/
theorem runTicks_fail_trigger (inputs : List TickInput) :
    ∀ sys : System, (∀ i ∈ inputs, i.success = false) →
      MovementEngine.is_running sys.engine = true →
      sys.sm.state.is_running = true →
      sys.sm.consecutive_errors + inputs.length = 5 →
      1 ≤ inputs.length →
      MovementEngine.is_running (MovementEngine.runTicks inputs sys).1.engine = false ∧
      (MovementEngine.runTicks inputs sys).1.sm.state.is_running = false ∧
      (MovementEngine.runTicks inputs sys).2.count Event.auto_stopped = 1 := by
  induction inputs with
  | nil =>
      intro sys _ _ _ _ hlen
      exact absurd hlen (by simp)
  | cons i rest ih =>
      intro sys hf he hr hsum _
      have hi : i.success = false := hf i (by simp)
      rcases rest with _ | ⟨j, rest'⟩
      · have hc : sys.sm.consecutive_errors + 1 ≥ InMemoryStateManager.MAX_CONSECUTIVE_ERRORS := by
          simp only [InMemoryStateManager.MAX_CONSECUTIVE_ERRORS]
          simp only [List.length_cons, List.length_nil] at hsum
          omega
        have h1 := execute_movement_trigger i sys hi he hr hc
        simp only [MovementEngine.runTicks, List.append_nil]
        exact ⟨h1.1, h1.2.1, h1.2.2⟩
      · have hc : sys.sm.consecutive_errors + 1 < 5 := by
          simp only [List.length_cons] at hsum
          omega
        have hrest := ih ({ sys with
                 sm := { sys.sm with
                         state := { sys.sm.state with
                                    error_count := sys.sm.state.error_count + 1 }
                         consecutive_errors := sys.sm.consecutive_errors + 1 } })
          (fun k hk => hf k (by simp [hk]))
          (by exact he)
          (by exact hr)
          (by
            show sys.sm.consecutive_errors + 1 + (j :: rest').length = 5
            simp only [List.length_cons] at hsum ⊢
            omega)
          (by simp)
        rw [runTicks_cons, execute_movement_fail_no_trigger i sys hi hc]
        exact ⟨hrest.1, hrest.2.1, by
          simp [List.count_cons, List.count_append, hrest.2.2]⟩

/-- Successful ticks: the deltas of the trace sum to `(0, 0)` when the
number of ticks is even (and to one pattern step when odd), and the phase
advances by one per tick. -/
theorem runTicks_success_sum (inputs : List TickInput) :
    ∀ sys : System, (∀ i ∈ inputs, i.success = true) →
      sys.engine.pattern_state ≤ 1 →
      sumDeltas (movementDeltas (MovementEngine.runTicks inputs sys).2)
        = (if inputs.length % 2 = 0 then (0, 0)
           else if sys.engine.pattern_state = 0 then ((1 : Int), (1 : Int)) else (-1, -1)) ∧
      (MovementEngine.runTicks inputs sys).1.engine.pattern_state
        = (sys.engine.pattern_state + inputs.length) % 2 := by
  induction inputs with
  | nil =>
      intro sys _ hp
      constructor
      · simp [MovementEngine.runTicks, movementDeltas, sumDeltas]
      · simp only [MovementEngine.runTicks, List.length_nil, Nat.add_zero]
        omega
  | cons i rest ih =>
      intro sys hf hp
      have hi : i.success = true := hf i (by simp)
      have hrest := ih ({ engine := { sys.engine with
                            pattern_state := 1 - sys.engine.pattern_state }
                          sm := { sys.sm with
                                  state := { sys.sm.state with
                                             movement_count := sys.sm.state.movement_count + 1
                                             last_movement_timestamp := some i.timestamp }
                                  consecutive_errors := 0 } })
        (fun k hk => hf k (by simp [hk]))
        (by
          show 1 - sys.engine.pattern_state ≤ 1
          omega)
      simp only [MovementEngine.runTicks, execute_movement_success_eq i sys hi]
      constructor
      · simp only [List.singleton_append]
        rw [movementDeltas_cons_exec, sumDeltas_cons, hrest.1]
        have hp01 : sys.engine.pattern_state = 0 ∨ sys.engine.pattern_state = 1 := by omega
        rcases hp01 with h0 | h1
        · rcases Nat.mod_two_eq_zero_or_one rest.length with hev | hod
          · have hlen : (rest.length + 1) % 2 = 1 := by omega
            simp [MovementEngine.get_next_movement_pattern, h0, hev, hlen, Prod.ext_iff]
          · have hlen : (rest.length + 1) % 2 = 0 := by omega
            simp [MovementEngine.get_next_movement_pattern, h0, hod, hlen, Prod.ext_iff]
        · rcases Nat.mod_two_eq_zero_or_one rest.length with hev | hod
          · have hlen : (rest.length + 1) % 2 = 1 := by omega
            simp [MovementEngine.get_next_movement_pattern, h1, hev, hlen, Prod.ext_iff]
          · have hlen : (rest.length + 1) % 2 = 0 := by omega
            simp [MovementEngine.get_next_movement_pattern, h1, hod, hlen, Prod.ext_iff]
      · rw [hrest.2]
        show (1 - sys.engine.pattern_state + rest.length) % 2
          = (sys.engine.pattern_state + (rest.length + 1)) % 2
        omega

/-- `stop` preserves timer/state agreement. -/
theorem stop_sync (sys : System) (h : inSync sys) :
    inSync (MovementEngine.stop sys).sys := by
  unfold inSync at h ⊢
  by_cases he : MovementEngine.is_running sys.engine = true
  · have hr : sys.sm.state.is_running = true := by rw [← h]; exact he
    have he' : sys.engine.timer.isSome = true := he
    simp [MovementEngine.stop, MovementEngine.is_running, he',
          InMemoryStateManager.stop, hr]
  · have he' : MovementEngine.is_running sys.engine = false := by simpa using he
    simpa [MovementEngine.stop, he'] using h

/-- `start` preserves timer/state agreement. -/
theorem start_sync (n : Int) (now : Nat) (sys : System) (h : inSync sys) :
    inSync (MovementEngine.start n now sys).sys := by
  unfold inSync at h ⊢
  by_cases he : MovementEngine.is_running sys.engine = true
  · simpa [MovementEngine.start, he] using h
  · have he' : MovementEngine.is_running sys.engine = false := by simpa using he
    have hr : sys.sm.state.is_running = false := by rw [← h]; exact he'
    by_cases hint : n < 10 ∨ n > 300
    · simpa [MovementEngine.start, he', hint] using h
    · have he2 : sys.engine.timer.isSome = false := he'
      simp [MovementEngine.start, MovementEngine.is_running, he2, hint,
            InMemoryStateManager.start, hr, ApplicationState.reset_counts]

/-- The tick handler preserves timer/state agreement. -/
theorem execute_sync (inp : TickInput) (sys : System) (h : inSync sys) :
    inSync (MovementEngine.execute_movement inp sys).1 := by
  by_cases hs : inp.success = true
  · unfold inSync at h ⊢
    rw [execute_movement_success_eq inp sys hs]
    simpa [MovementEngine.is_running] using h
  · have hs' : inp.success = false := by simpa using hs
    by_cases ht : sys.sm.consecutive_errors + 1 ≥ InMemoryStateManager.MAX_CONSECUTIVE_ERRORS
    · have h1 : inSync ({ sys with
          sm := { sys.sm with
                  state := { sys.sm.state with
                             error_count := sys.sm.state.error_count + 1 }
                  consecutive_errors := sys.sm.consecutive_errors + 1 } }) := by
        unfold inSync at h ⊢
        simpa using h
      have hst := stop_sync _ h1
      simp only [MovementEngine.execute_movement, hs',
                 InMemoryStateManager.record_movement_failure, ht, if_pos, if_true]
      rcases hre : (MovementEngine.stop ({ sys with
          sm := { sys.sm with
                  state := { sys.sm.state with
                             error_count := sys.sm.state.error_count + 1 }
                  consecutive_errors := sys.sm.consecutive_errors + 1 } })).err with _ | msg <;>
        simp [hre, hst]
    · have ht' : sys.sm.consecutive_errors + 1 < 5 := by
        simp only [InMemoryStateManager.MAX_CONSECUTIVE_ERRORS] at ht
        omega
      rw [execute_movement_fail_no_trigger inp sys hs' ht']
      unfold inSync at h ⊢
      simpa using h

/-- If the engine was not running and `start` raised, the timer is still
disarmed afterwards. -/
theorem start_fail_disarmed (m : Int) (t : Nat) (s : System)
    (he : MovementEngine.is_running s.engine = false)
    (herr : ((MovementEngine.start m t s).err).isSome = true) :
    MovementEngine.is_running (MovementEngine.start m t s).sys.engine = false := by
  have he2 : s.engine.timer.isSome = false := he
  by_cases hint : m < 10 ∨ m > 300
  · simp [MovementEngine.start, MovementEngine.is_running, he2, hint]
  · rcases hs : InMemoryStateManager.start t s.sm with msg | p
    · simp [MovementEngine.start, MovementEngine.is_running, he2, hint, hs]
    · simp [MovementEngine.start, MovementEngine.is_running, he2, hint, hs] at herr

/-- `start` on an already-running engine rejects without any change. -/
theorem start_on_running (m : Int) (u : Nat) (s : System)
    (h : MovementEngine.is_running s.engine = true) :
    MovementEngine.start m u s
      = { sys := s, events := [], err := some "Movement engine is already running" } := by
  simp [MovementEngine.start, h]

/-! ### Claim theorems -/

/-- C1 (counterexample): `get_next_movement_pattern` performs no state
update — its result depends only on the engine state it is given — so
after a first call on the initial phase the engine state is unchanged and
a second consecutive call again returns `(1, 1)`, not `(-1, -1)`; the
componentwise sum of the deltas returned by two consecutive calls is
`(2, 2)`, not `(0, 0)`. -/
theorem c1_pattern_calls_counterexample :
    MovementEngine.get_next_movement_pattern EngineState.init = (1, 1) ∧
    MovementEngine.get_next_movement_pattern EngineState.init ≠ (-1, -1) ∧
    sumDeltas [MovementEngine.get_next_movement_pattern EngineState.init,
               MovementEngine.get_next_movement_pattern EngineState.init] = (2, 2) := by
  decide

/-- C1 (amended): the pattern phase advances once per successful tick,
not per call of `get_next_movement_pattern`; over successful ticks
starting at the initial phase the executed deltas alternate `(1, 1)`,
`(-1, -1)`, and the componentwise sum of the deltas over any even number
of successful ticks is `(0, 0)`. -/
theorem c1_alternating_pattern_amended (sys : System) (inputs : List TickInput)
    (hs : ∀ i ∈ inputs, i.success = true)
    (hp : sys.engine.pattern_state = 0) :
    (∀ i1 i2 rest, inputs = i1 :: i2 :: rest →
       (movementDeltas (MovementEngine.runTicks inputs sys).2).take 2
         = [((1 : Int), (1 : Int)), ((-1 : Int), (-1 : Int))]) ∧
    (inputs.length % 2 = 0 →
       sumDeltas (movementDeltas (MovementEngine.runTicks inputs sys).2) = (0, 0)) := by
  constructor
  · rintro i1 i2 rest rfl
    have h1 : i1.success = true := hs i1 (by simp)
    have h2 : i2.success = true := hs i2 (by simp)
    rw [runTicks_cons, execute_movement_success_eq i1 sys h1, runTicks_cons,
        execute_movement_success_eq i2 _ h2]
    simp [movementDeltas, MovementEngine.get_next_movement_pattern, hp]
  · intro heven
    have h := runTicks_success_sum inputs sys hs (by omega)
    rw [h.1]
    simp [heven]

/-- C1 (amended) witness: two successful ticks on the freshly started
system give deltas `(1, 1)` then `(-1, -1)`, summing to `(0, 0)`. -/
theorem c1_alternating_pattern_amended_witness :
    (∀ i1 i2 rest, [tickSuccess 1, tickSuccess 2] = i1 :: i2 :: rest →
       (movementDeltas
           (MovementEngine.runTicks [tickSuccess 1, tickSuccess 2] runningSystem).2).take 2
         = [((1 : Int), (1 : Int)), ((-1 : Int), (-1 : Int))]) ∧
    ([tickSuccess 1, tickSuccess 2].length % 2 = 0 →
       sumDeltas (movementDeltas
           (MovementEngine.runTicks [tickSuccess 1, tickSuccess 2] runningSystem).2)
         = (0, 0)) :=
  c1_alternating_pattern_amended runningSystem [tickSuccess 1, tickSuccess 2]
    (by decide) (by decide)

/-- C2: starting from a consistently running system with a fresh
consecutive-error counter, any sequence of consecutive failed ticks of
length below 5 leaves the engine running with no `auto_stopped` event,
while a sequence of length exactly 5 stops the engine and emits exactly
one `auto_stopped` event. -/
theorem c2_consecutive_failure_threshold (inputs : List TickInput) (sys : System)
    (hf : ∀ i ∈ inputs, i.success = false)
    (he : MovementEngine.is_running sys.engine = true)
    (hr : sys.sm.state.is_running = true)
    (hc : sys.sm.consecutive_errors = 0) :
    (inputs.length < 5 →
       MovementEngine.is_running (MovementEngine.runTicks inputs sys).1.engine = true ∧
       (MovementEngine.runTicks inputs sys).2.count Event.auto_stopped = 0) ∧
    (inputs.length = 5 →
       MovementEngine.is_running (MovementEngine.runTicks inputs sys).1.engine = false ∧
       (MovementEngine.runTicks inputs sys).2.count Event.auto_stopped = 1) := by
  constructor
  · intro hlen
    have h := runTicks_fail_no_stop inputs sys hf (by omega)
    exact ⟨by rw [h.1]; exact he, h.2.2.2⟩
  · intro hlen
    have h := runTicks_fail_trigger inputs sys hf he hr (by omega) (by omega)
    exact ⟨h.1, h.2.2⟩

/-- C2 witness: five simulated failures on the freshly started system
auto-stop it with exactly one `auto_stopped` event; four do not. -/
theorem c2_consecutive_failure_threshold_witness :
    ([tickFail 1, tickFail 2, tickFail 3, tickFail 4].length < 5 →
       MovementEngine.is_running
           (MovementEngine.runTicks [tickFail 1, tickFail 2, tickFail 3, tickFail 4]
             runningSystem).1.engine = true ∧
       (MovementEngine.runTicks [tickFail 1, tickFail 2, tickFail 3, tickFail 4]
           runningSystem).2.count Event.auto_stopped = 0) ∧
    ([tickFail 1, tickFail 2, tickFail 3, tickFail 4, tickFail 5].length = 5 →
       MovementEngine.is_running
           (MovementEngine.runTicks
             [tickFail 1, tickFail 2, tickFail 3, tickFail 4, tickFail 5]
             runningSystem).1.engine = false ∧
       (MovementEngine.runTicks
           [tickFail 1, tickFail 2, tickFail 3, tickFail 4, tickFail 5]
           runningSystem).2.count Event.auto_stopped = 1) :=
  ⟨(c2_consecutive_failure_threshold
      [tickFail 1, tickFail 2, tickFail 3, tickFail 4] runningSystem
      (by decide) (by decide) (by decide) (by decide)).1,
   (c2_consecutive_failure_threshold
      [tickFail 1, tickFail 2, tickFail 3, tickFail 4, tickFail 5] runningSystem
      (by decide) (by decide) (by decide) (by decide)).2⟩

/-- C3: `record_movement_failure` increments `error_count` by 1 and the
consecutive-error counter by 1, leaves `is_running` unchanged, and
returns `true` iff the incremented consecutive-error counter reached the
threshold `MAX_CONSECUTIVE_ERRORS = 5`. -/
theorem c3_record_movement_failure_spec (m : MouseMovement) (sm : SMState) :
    (InMemoryStateManager.record_movement_failure m sm).1.state.error_count
        = sm.state.error_count + 1 ∧
    (InMemoryStateManager.record_movement_failure m sm).1.consecutive_errors
        = sm.consecutive_errors + 1 ∧
    (InMemoryStateManager.record_movement_failure m sm).1.state.is_running
        = sm.state.is_running ∧
    ((InMemoryStateManager.record_movement_failure m sm).2 = true ↔
        sm.consecutive_errors + 1 ≥ InMemoryStateManager.MAX_CONSECUTIVE_ERRORS) ∧
    InMemoryStateManager.MAX_CONSECUTIVE_ERRORS = 5 := by
  simp only [InMemoryStateManager.record_movement_failure]
  split
  · rename_i h
    exact ⟨rfl, rfl, rfl, ⟨fun _ => h, fun _ => rfl⟩, rfl⟩
  · rename_i h
    exact ⟨rfl, rfl, rfl,
      ⟨fun hft => absurd hft (by simp), fun hcond => absurd hcond h⟩, rfl⟩

/-- C4: from a consistently running system with a fresh consecutive-error
counter, the tick sequence 4 failures, 1 success, 4 failures never
triggers an auto-stop: the engine stays running and no `auto_stopped`
event is emitted. -/
theorem c4_success_breaks_streak (sys : System)
    (f1 f2 f3 f4 s5 f6 f7 f8 f9 : TickInput)
    (hf1 : f1.success = false) (hf2 : f2.success = false)
    (hf3 : f3.success = false) (hf4 : f4.success = false)
    (hs5 : s5.success = true)
    (hf6 : f6.success = false) (hf7 : f7.success = false)
    (hf8 : f8.success = false) (hf9 : f9.success = false)
    (he : MovementEngine.is_running sys.engine = true)
    (hr : sys.sm.state.is_running = true)
    (hc : sys.sm.consecutive_errors = 0) :
    MovementEngine.is_running
        (MovementEngine.runTicks [f1, f2, f3, f4, s5, f6, f7, f8, f9] sys).1.engine
      = true ∧
    (MovementEngine.runTicks [f1, f2, f3, f4, s5, f6, f7, f8, f9] sys).2.count
        Event.auto_stopped = 0 := by
  have hsplit : [f1, f2, f3, f4, s5, f6, f7, f8, f9]
      = [f1, f2, f3, f4] ++ s5 :: [f6, f7, f8, f9] := rfl
  have hA := runTicks_fail_no_stop [f1, f2, f3, f4] sys
    (by intro i hi; simp at hi; rcases hi with rfl | rfl | rfl | rfl <;> assumption)
    (by simp [hc])
  have hSucc := execute_movement_success s5
    (MovementEngine.runTicks [f1, f2, f3, f4] sys).1 hs5
  have hB := runTicks_fail_no_stop [f6, f7, f8, f9]
    (MovementEngine.execute_movement s5
      (MovementEngine.runTicks [f1, f2, f3, f4] sys).1).1
    (by intro i hi; simp at hi; rcases hi with rfl | rfl | rfl | rfl <;> assumption)
    (by rw [hSucc.2.2.1]; simp)
  rw [hsplit, runTicks_append, runTicks_cons]
  constructor
  · simp only [MovementEngine.is_running]
    rw [hB.1, hSucc.1, hA.1]
    exact he
  · simp [List.count_append, hA.2.2.2, hB.2.2.2, hSucc.2.2.2, List.count_cons]

/-- C4 witness: the concrete 4-fail / 1-success / 4-fail sequence on the
freshly started system leaves it running with no `auto_stopped` event. -/
theorem c4_success_breaks_streak_witness :
    MovementEngine.is_running
        (MovementEngine.runTicks
          [tickFail 1, tickFail 2, tickFail 3, tickFail 4, tickSuccess 5,
           tickFail 6, tickFail 7, tickFail 8, tickFail 9] runningSystem).1.engine
      = true ∧
    (MovementEngine.runTicks
        [tickFail 1, tickFail 2, tickFail 3, tickFail 4, tickSuccess 5,
         tickFail 6, tickFail 7, tickFail 8, tickFail 9] runningSystem).2.count
        Event.auto_stopped = 0 :=
  c4_success_breaks_streak runningSystem
    (tickFail 1) (tickFail 2) (tickFail 3) (tickFail 4) (tickSuccess 5)
    (tickFail 6) (tickFail 7) (tickFail 8) (tickFail 9)
    (by decide) (by decide) (by decide) (by decide) (by decide)
    (by decide) (by decide) (by decide) (by decide)
    (by decide) (by decide) (by decide)

/-- C5: on a consistent system (timer armed iff logical state RUNNING),
`start`, `stop` and the tick handler all preserve consistency, on their
success and failure paths alike; moreover, whenever `start` on a
disarmed engine raises (including the path where the state manager's
`start` fails), the timer is still disarmed afterwards, so `is_running()`
is false. -/
theorem c5_engine_timer_state_sync (sys : System) (n : Int) (now : Nat)
    (inp : TickInput) (h : inSync sys) :
    inSync (MovementEngine.start n now sys).sys ∧
    inSync (MovementEngine.stop sys).sys ∧
    inSync (MovementEngine.execute_movement inp sys).1 ∧
    (∀ (s : System) (m : Int) (t : Nat),
       MovementEngine.is_running s.engine = false →
       ((MovementEngine.start m t s).err).isSome = true →
       MovementEngine.is_running (MovementEngine.start m t s).sys.engine = false) :=
  ⟨start_sync n now sys h, stop_sync sys h, execute_sync inp sys h,
   fun s m t he herr => start_fail_disarmed m t s he herr⟩

/-- C5 witness: consistency is preserved at the concrete initial system,
and an interval-rejected `start` leaves the timer disarmed. -/
theorem c5_engine_timer_state_sync_witness :
    inSync (MovementEngine.start 30 0 initSystem).sys ∧
    inSync (MovementEngine.stop initSystem).sys ∧
    inSync (MovementEngine.execute_movement (tickFail 1) initSystem).1 ∧
    MovementEngine.is_running (MovementEngine.start 5 0 initSystem).sys.engine
      = false :=
  have h := c5_engine_timer_state_sync initSystem 30 0 (tickFail 1)
    (by unfold inSync; decide)
  ⟨h.1, h.2.1, h.2.2.1, h.2.2.2 initSystem 5 0 (by decide) (by decide)⟩

/-- C6: from a stopped system (engine and state manager both stopped),
`start n` with `10 ≤ n ≤ 300` returns without error and `is_running()`
is then true; `start n` with `n` outside `[10, 300]` raises EngineError
and `is_running()` stays false. -/
theorem c6_start_interval_validation (sys : System) (n : Int) (now : Nat)
    (heng : MovementEngine.is_running sys.engine = false)
    (hsm : sys.sm.state.is_running = false) :
    (10 ≤ n ∧ n ≤ 300 →
       (MovementEngine.start n now sys).err = none ∧
       MovementEngine.is_running (MovementEngine.start n now sys).sys.engine = true) ∧
    ((n < 10 ∨ 300 < n) →
       ((MovementEngine.start n now sys).err).isSome = true ∧
       MovementEngine.is_running (MovementEngine.start n now sys).sys.engine = false) := by
  have he2 : sys.engine.timer.isSome = false := heng
  constructor
  · rintro ⟨h1, h2⟩
    have hint : ¬ (n < 10 ∨ n > 300) := by omega
    simp [MovementEngine.start, MovementEngine.is_running, he2, hint,
          InMemoryStateManager.start, hsm]
  · intro hout
    have hint : n < 10 ∨ n > 300 := by omega
    simp [MovementEngine.start, MovementEngine.is_running, he2, hint]

/-- C6 witness: `start 30` on the fresh system succeeds and runs;
`start 5` and `start 301` fail and leave it stopped. -/
theorem c6_start_interval_validation_witness :
    ((MovementEngine.start 30 0 initSystem).err = none ∧
     MovementEngine.is_running (MovementEngine.start 30 0 initSystem).sys.engine = true) ∧
    (((MovementEngine.start 5 0 initSystem).err).isSome = true ∧
     MovementEngine.is_running (MovementEngine.start 5 0 initSystem).sys.engine = false) ∧
    (((MovementEngine.start 301 0 initSystem).err).isSome = true ∧
     MovementEngine.is_running (MovementEngine.start 301 0 initSystem).sys.engine
       = false) :=
  ⟨(c6_start_interval_validation initSystem 30 0 (by decide) (by decide)).1
     (by norm_num),
   (c6_start_interval_validation initSystem 5 0 (by decide) (by decide)).2
     (by norm_num),
   (c6_start_interval_validation initSystem 301 0 (by decide) (by decide)).2
     (by norm_num)⟩

/-- C7: after a successful `start`, a second `start` without an
intervening `stop` raises EngineError and leaves the whole system state
unchanged, emitting no events. -/
theorem c7_start_twice_rejected (sys : System) (n m : Int) (t u : Nat)
    (h : (MovementEngine.start n t sys).err = none) :
    ((MovementEngine.start m u (MovementEngine.start n t sys).sys).err).isSome = true ∧
    (MovementEngine.start m u (MovementEngine.start n t sys).sys).sys
      = (MovementEngine.start n t sys).sys ∧
    (MovementEngine.start m u (MovementEngine.start n t sys).sys).events = [] := by
  by_cases h1 : MovementEngine.is_running sys.engine = true
  · simp [MovementEngine.start, h1] at h
  · have h1' : sys.engine.timer.isSome = false := by
      simpa [MovementEngine.is_running] using h1
    by_cases h2 : n < 10 ∨ n > 300
    · simp [MovementEngine.start, MovementEngine.is_running, h1', h2] at h
    · rcases hs : InMemoryStateManager.start t sys.sm with msg | p
      · simp [MovementEngine.start, MovementEngine.is_running, h1', h2, hs] at h
      · have hrun : MovementEngine.is_running
            (MovementEngine.start n t sys).sys.engine = true := by
          simp [MovementEngine.start, MovementEngine.is_running, h1', h2, hs]
        rw [start_on_running m u _ hrun]
        exact ⟨rfl, rfl, rfl⟩

/-- C7 witness: a concrete double `start 30` is rejected the second time
with the system unchanged. -/
theorem c7_start_twice_rejected_witness :
    ((MovementEngine.start 30 1 (MovementEngine.start 30 0 initSystem).sys).err).isSome
      = true ∧
    (MovementEngine.start 30 1 (MovementEngine.start 30 0 initSystem).sys).sys
      = (MovementEngine.start 30 0 initSystem).sys ∧
    (MovementEngine.start 30 1 (MovementEngine.start 30 0 initSystem).sys).events
      = [] :=
  c7_start_twice_rejected initSystem 30 30 0 1 (by decide)

/-- C8: the concrete scenario — `start 30`, three successful ticks,
`get_state` shows `movement_count = 3` and `error_count = 0`; after
`stop()` the `movement_count` is still 3; after a second `start 30` both
counters are 0 again. -/
theorem c8_counters_reset_scenario :
    (MovementEngine.start 30 100 initSystem).err = none ∧
    (InMemoryStateManager.get_state
        (MovementEngine.runTicks [tickSuccess 101, tickSuccess 102, tickSuccess 103]
          (MovementEngine.start 30 100 initSystem).sys).1.sm).movement_count = 3 ∧
    (InMemoryStateManager.get_state
        (MovementEngine.runTicks [tickSuccess 101, tickSuccess 102, tickSuccess 103]
          (MovementEngine.start 30 100 initSystem).sys).1.sm).error_count = 0 ∧
    (MovementEngine.stop
        (MovementEngine.runTicks [tickSuccess 101, tickSuccess 102, tickSuccess 103]
          (MovementEngine.start 30 100 initSystem).sys).1).err = none ∧
    (InMemoryStateManager.get_state
        (MovementEngine.stop
          (MovementEngine.runTicks [tickSuccess 101, tickSuccess 102, tickSuccess 103]
            (MovementEngine.start 30 100 initSystem).sys).1).sys.sm).movement_count
      = 3 ∧
    (MovementEngine.start 30 200
        (MovementEngine.stop
          (MovementEngine.runTicks [tickSuccess 101, tickSuccess 102, tickSuccess 103]
            (MovementEngine.start 30 100 initSystem).sys).1).sys).err = none ∧
    (InMemoryStateManager.get_state
        (MovementEngine.start 30 200
          (MovementEngine.stop
            (MovementEngine.runTicks [tickSuccess 101, tickSuccess 102, tickSuccess 103]
              (MovementEngine.start 30 100 initSystem).sys).1).sys).sys.sm).movement_count
      = 0 ∧
    (InMemoryStateManager.get_state
        (MovementEngine.start 30 200
          (MovementEngine.stop
            (MovementEngine.runTicks [tickSuccess 101, tickSuccess 102, tickSuccess 103]
              (MovementEngine.start 30 100 initSystem).sys).1).sys).sys.sm).error_count
      = 0 := by
  decide

/-- C9: on each transition (`start` and `stop`) every subscribed callback
is invoked exactly once, in order, with the new running flag — including
callbacks whose invocation raises, whose errors are caught — the
transition itself never fails because of a callback, the subscriber list
is unchanged, and the manager's state is the transition result regardless
of callback behaviour. -/
theorem c9_state_change_notification (sm : SMState) (now : Nat) :
    (sm.state.is_running = false →
       ∃ sm', InMemoryStateManager.start now sm
           = Except.ok (sm', sm.subscribers.map (fun c => Event.state_changed c.id true)) ∧
         sm'.subscribers = sm.subscribers ∧
         sm'.state.is_running = true) ∧
    (sm.state.is_running = true →
       ∃ sm', InMemoryStateManager.stop sm
           = Except.ok (sm', sm.subscribers.map (fun c => Event.state_changed c.id false)) ∧
         sm'.subscribers = sm.subscribers ∧
         sm'.state.is_running = false) := by
  constructor
  · intro h
    refine ⟨{ sm with
              state := { sm.state with
                         is_running := true
                         start_timestamp := some now
                         movement_count := 0
                         error_count := 0 }
              consecutive_errors := 0 }, ?_, rfl, rfl⟩
    simp [InMemoryStateManager.start, h, ApplicationState.reset_counts,
          notify_state_change_eq_map]
  · intro h
    refine ⟨{ sm with state := { sm.state with is_running := false } }, ?_, rfl, rfl⟩
    simp [InMemoryStateManager.stop, h, notify_state_change_eq_map]

/-- C9 witness: on a manager with a raising subscriber and a normal one,
`start` still succeeds and both subscribers are notified once, in order. -/
theorem c9_state_change_notification_witness :
    ∃ sm', InMemoryStateManager.start 5 smW
        = Except.ok (sm', smW.subscribers.map (fun c => Event.state_changed c.id true)) ∧
      sm'.subscribers = smW.subscribers ∧
      sm'.state.is_running = true :=
  (c9_state_change_notification smW 5).1 (by decide)

/-- C10: `subscribe_state_change` is idempotent — subscribing the same
callback twice equals subscribing it once, and a newly subscribed
callback occurs exactly once in the subscriber list — and
`unsubscribe_state_change` of an unsubscribed callback is a no-op. -/
theorem c10_subscribe_idempotent_unsubscribe_total (sm : SMState) (c : Callback) :
    InMemoryStateManager.subscribe_state_change c
        (InMemoryStateManager.subscribe_state_change c sm)
      = InMemoryStateManager.subscribe_state_change c sm ∧
    (c ∉ sm.subscribers →
       (InMemoryStateManager.subscribe_state_change c sm).subscribers.count c = 1) ∧
    (c ∉ sm.subscribers →
       InMemoryStateManager.unsubscribe_state_change c sm = sm) := by
  refine ⟨?_, ?_, ?_⟩
  · by_cases h : c ∈ sm.subscribers
    · simp [InMemoryStateManager.subscribe_state_change, h]
    · simp [InMemoryStateManager.subscribe_state_change, h]
  · intro h
    simp [InMemoryStateManager.subscribe_state_change, h, List.count_append,
          List.count_eq_zero.mpr h]
  · intro h
    simp [InMemoryStateManager.unsubscribe_state_change, h]

/-- C10 witness: on the fresh manager, double-subscribing a concrete
callback equals subscribing once, the callback then occurs once, and
unsubscribing it while unsubscribed is a no-op. -/
theorem c10_subscribe_idempotent_unsubscribe_total_witness :
    InMemoryStateManager.subscribe_state_change { id := 7, throws := false }
        (InMemoryStateManager.subscribe_state_change { id := 7, throws := false }
          (InMemoryStateManager.init ""))
      = InMemoryStateManager.subscribe_state_change { id := 7, throws := false }
          (InMemoryStateManager.init "") ∧
    (InMemoryStateManager.subscribe_state_change { id := 7, throws := false }
        (InMemoryStateManager.init "")).subscribers.count
        { id := 7, throws := false } = 1 ∧
    InMemoryStateManager.unsubscribe_state_change { id := 7, throws := false }
        (InMemoryStateManager.init "")
      = InMemoryStateManager.init "" :=
  have h := c10_subscribe_idempotent_unsubscribe_total
    (InMemoryStateManager.init "") { id := 7, throws := false }
  ⟨h.1, h.2.1 (by decide), h.2.2 (by decide)⟩

end AntiScreenSaver
